import Mathlib

/-!
Shallow embedding of tuncat, a TUN/TAP-to-stdio bridge, for checking its
natural-language specification against the code.

The embedding follows the most complete variant of the program (the one
with user/group ownership support).  Machine integers are modelled as
Int/Nat, syscall outcomes as explicit oracle records, and the
option-processing loop, device provisioning (create_tun), teardown
(close_tun) and forwarding loop (infinite_loop) as pure functions over
those oracles.
-/

namespace Tuncat

/-- Linux errno value EINVAL (22). -/
def EINVAL : Int := 22

/-- Linux errno value ERANGE (34). -/
def ERANGE : Int := 34

/-- Linux errno value ENAMETOOLONG (36). -/
def ENAMETOOLONG : Int := 36

/-- Linux errno value ENOMEM (12). -/
def ENOMEM : Int := 12

/-- Linux errno value EINTR (4). -/
def EINTR : Int := 4

/-- Interface-request flag bit for a layer-3 TUN device. -/
def IFF_TUN : Nat := 1

/-- Interface-request flag bit for a layer-2 TAP device. -/
def IFF_TAP : Nat := 2

/-- Interface-request flag bit suppressing the 4-byte packet-info preamble. -/
def IFF_NO_PI : Nat := 4096

/-- Size of an interface-name buffer, terminating NUL included. -/
def IFNAMSIZ : Nat := 16

/-- Largest value of the 32-bit unsigned type used for uid_t and gid_t. -/
def UINT_MAX_I : Int := 4294967295

/-- The sentinel (uid_t)(-1), meaning "do not change the owner or group". -/
def ID_NONE : Nat := 4294967295

/-- Largest value of a 64-bit signed long, as returned by strtol. -/
def LONG_MAX : Int := 9223372036854775807

/-- Smallest value of a 64-bit signed long, as returned by strtol. -/
def LONG_MIN : Int := -9223372036854775808

/-- The characters accepted by isspace in the POSIX locale, which strtol
skips before looking for a sign and digits. -/
def isSpaceChar (c : Char) : Bool :=
  c = ' ' || c = '\t' || c = '\n' || c = Char.ofNat 11 || c = Char.ofNat 12 || c = '\r'

/-- Numeric value of a string of decimal digits. -/
def digitsVal (l : List Char) : Nat :=
  l.foldl (fun a c => a * 10 + (c.toNat - 48)) 0

/-- Outcome of a strtol call: the returned long, whether the end pointer
was left on the terminating NUL (the whole string was consumed), and
whether errno was set to ERANGE by an overflow. -/
structure StrtolOut where
  value : Int
  consumedAll : Bool
  erange : Bool
deriving DecidableEq

/-- strtol(s, &endptr, 10) on a NUL-terminated string modelled as a list of
characters.  Leading isspace characters are skipped, one optional sign is
read, then decimal digits.  If no digit is found the end pointer is reset
to the start of the string, so consumedAll holds only for the empty
string; on overflow the value saturates at LONG_MAX or LONG_MIN and
erange is set. -/
def strtol10 (s : List Char) : StrtolOut :=
  let afterWs := s.dropWhile isSpaceChar
  let signSplit : Bool × List Char :=
    match afterWs with
    | '-' :: t => (true, t)
    | '+' :: t => (false, t)
    | l => (false, l)
  let digs := signSplit.2.takeWhile Char.isDigit
  let rest := signSplit.2.drop digs.length
  if digs.isEmpty then
    { value := 0, consumedAll := s.isEmpty, erange := false }
  else
    let m : Int := (digitsVal digs : Int)
    let v : Int := if signSplit.1 then -m else m
    if LONG_MAX < v then
      { value := LONG_MAX, consumedAll := rest.isEmpty, erange := true }
    else if v < LONG_MIN then
      { value := LONG_MIN, consumedAll := rest.isEmpty, erange := true }
    else
      { value := v, consumedAll := rest.isEmpty, erange := false }

/-- get_uid_by_name from the source: the owner string is first given to
strtol; if the whole string was consumed with errno still 0, the value is
range-checked against [0, UINT_MAX] and either stored or rejected with
ERANGE; otherwise the string goes to getpwnam, modelled by the oracle pw,
and a failed lookup yields EINVAL.  The second component is the id stored
through the out-pointer (none when nothing was stored).  The NULL-pointer
guard at the top of the C function is outside this string-level model. -/
def get_uid_by_name (name : List Char) (pw : List Char → Option Nat) : Int × Option Nat :=
  let r := strtol10 name
  if r.consumedAll && !r.erange then
    if r.value < 0 ∨ UINT_MAX_I < r.value then (ERANGE, none)
    else (0, some r.value.toNat)
  else
    match pw name with
    | none => (EINVAL, none)
    | some u => (0, some u)

/-- get_gid_by_name from the source: identical logic to get_uid_by_name
with getgrnam, modelled by the oracle gr, in place of getpwnam. -/
def get_gid_by_name (name : List Char) (gr : List Char → Option Nat) : Int × Option Nat :=
  let r := strtol10 name
  if r.consumedAll && !r.erange then
    if r.value < 0 ∨ UINT_MAX_I < r.value then (ERANGE, none)
    else (0, some r.value.toNat)
  else
    match gr name with
    | none => (EINVAL, none)
    | some g => (0, some g)

/-- close_tun from the source.  closeRes and closeErrno are the oracle for
the close(2) call: its return value and the errno it would leave. -/
def close_tun (fd : Int) (closeRes : Int) (closeErrno : Int) : Int :=
  if fd ≤ 0 then EINVAL
  else if closeRes ≠ 0 then closeErrno
  else 0

/-- Oracle for the syscalls performed by create_tun: the value returned by
each call and the errno it would leave on failure, plus the interface name
the kernel writes back into ifr.ifr_name when TUNSETIFF succeeds. -/
structure TunOracle where
  openRes : Int
  openErrno : Int
  setiffRes : Int
  setiffErrno : Int
  kernelName : List Char
  getflRes : Int
  getflErrno : Int
  setflRes : Int
  setflErrno : Int
  persistRes : Int
  persistErrno : Int
  ownerRes : Int
  ownerErrno : Int
  groupRes : Int
  groupErrno : Int
deriving DecidableEq

/-- Observable outcome of a create_tun call: its return value, whether the
control device was opened and whether it was closed again, the ifr_flags
word handed to TUNSETIFF if that request was issued, which follow-up
requests were issued, the descriptor stored through the out-pointer, and
the final content of the caller's name buffer. -/
structure CreateTunResult where
  ret : Int
  opened : Bool
  closed : Bool
  requestFlags : Option Nat
  nonblockSet : Bool
  persistIssued : Bool
  ownerIssued : Bool
  groupIssued : Bool
  assignedFd : Option Int
  nameOut : Option (List Char)
deriving DecidableEq

/-- The strlen(name) >= IFNAMSIZ rejection applied when the caller passes a
name buffer (a NULL name skips the check). -/
def nameTooLong : Option (List Char) → Bool
  | some n => IFNAMSIZ ≤ n.length
  | none => false

/-- The ifr_flags word create_tun always hands to TUNSETIFF; the function
assigns IFF_TUN | IFF_NO_PI to a freshly zeroed ifreq regardless of what
the caller configured. -/
def requestedTunFlags : Nat := Nat.lor IFF_TUN IFF_NO_PI

/-- Labels for the return statements of create_tun, one per exit path of
the source, in source order. -/
inductive TunStep where
  | nullParam
  | openFail
  | nameLong
  | setiffFail
  | getflFail
  | setflFail
  | persistFail
  | ownerFail
  | groupFail
  | readbackFail
  | success
deriving DecidableEq

/-- The control flow of create_tun: which return statement a call reaches,
given the arguments and the syscall oracle.  The guard order mirrors the
source: NULL out-pointer, open, strlen(name) >= IFNAMSIZ, TUNSETIFF, the
two fcntl calls, TUNSETPERSIST only when persistent is requested,
TUNSETOWNER only when uid differs from (uid_t)(-1), TUNSETGROUP likewise,
then the strlen(ifr.ifr_name) >= name_buffer_len read-back check, which
runs only when a name buffer was passed. -/
def create_tun_step (tunFdNull : Bool) (name : Option (List Char)) (nameBufLen : Nat)
    (persistent : Bool) (uid gid : Nat) (o : TunOracle) : TunStep :=
  if tunFdNull then TunStep.nullParam
  else if o.openRes < 0 then TunStep.openFail
  else if nameTooLong name then TunStep.nameLong
  else if o.setiffRes < 0 then TunStep.setiffFail
  else if o.getflRes < 0 then TunStep.getflFail
  else if o.setflRes < 0 then TunStep.setflFail
  else if persistent = true ∧ o.persistRes < 0 then TunStep.persistFail
  else if uid ≠ ID_NONE ∧ o.ownerRes < 0 then TunStep.ownerFail
  else if gid ≠ ID_NONE ∧ o.groupRes < 0 then TunStep.groupFail
  else if name.isSome = true ∧ nameBufLen ≤ o.kernelName.length then TunStep.readbackFail
  else TunStep.success

/-- create_tun from the source: the observable outcome of each return
statement, selected by create_tun_step.  Every failure after the open
closes the descriptor before returning; the out-pointer is assigned and
the kernel-confirmed name copied back only on the success path. -/
def create_tun (tunFdNull : Bool) (name : Option (List Char)) (nameBufLen : Nat)
    (persistent : Bool) (uid gid : Nat) (o : TunOracle) : CreateTunResult :=
  match create_tun_step tunFdNull name nameBufLen persistent uid gid o with
  | TunStep.nullParam =>
    ⟨EINVAL, false, false, none, false, false, false, false, none, name⟩
  | TunStep.openFail =>
    ⟨o.openErrno, false, false, none, false, false, false, false, none, name⟩
  | TunStep.nameLong =>
    ⟨ENAMETOOLONG, true, true, none, false, false, false, false, none, name⟩
  | TunStep.setiffFail =>
    ⟨o.setiffErrno, true, true, some requestedTunFlags, false, false, false, false, none, name⟩
  | TunStep.getflFail =>
    ⟨o.getflErrno, true, true, some requestedTunFlags, false, false, false, false, none, name⟩
  | TunStep.setflFail =>
    ⟨o.setflErrno, true, true, some requestedTunFlags, false, false, false, false, none, name⟩
  | TunStep.persistFail =>
    ⟨o.persistErrno, true, true, some requestedTunFlags, true, true, false, false, none, name⟩
  | TunStep.ownerFail =>
    ⟨o.ownerErrno, true, true, some requestedTunFlags, true, persistent, true, false, none, name⟩
  | TunStep.groupFail =>
    ⟨o.groupErrno, true, true, some requestedTunFlags, true, persistent,
      uid != ID_NONE, true, none, name⟩
  | TunStep.readbackFail =>
    ⟨2, true, true, some requestedTunFlags, true, persistent,
      uid != ID_NONE, gid != ID_NONE, none, name⟩
  | TunStep.success =>
    ⟨0, true, false, some requestedTunFlags, true, persistent,
      uid != ID_NONE, gid != ID_NONE, some o.openRes,
      if name.isSome then some o.kernelName else none⟩

/-- The syscall-level events the forwarding loop can emit.  The readFrom
and writeTo constructors exist so that absence of payload transfer is
expressible; the loop body of the source contains no read or write call. -/
inductive IOEvent where
  | selectWait
  | readFrom (fd : Int) (data : List Nat)
  | writeTo (fd : Int) (data : List Nat)
deriving DecidableEq

/-- Outcome of one select(2) call: either the count of descriptors
reported ready, or a failure together with whether errno is EINTR. -/
inductive SelectOutcome where
  | ready (n : Nat)
  | fail (isEintr : Bool) (errnoVal : Int)
deriving DecidableEq

/-- Oracle for one iteration of the forwarding loop: the select outcome
and the value of the interrupt flag the iteration observes after it. -/
structure LoopIter where
  sel : SelectOutcome
  interrupt : Bool
deriving DecidableEq

/-- The while body of infinite_loop, iterated over the oracle list.  Each
iteration re-arms the descriptor sets, emits one select wait, then follows
the source: a negative result with errno EINTR sets res to 0 and breaks; a
negative result otherwise stores errno in res; then the interrupt flag is
checked and, if set, the loop breaks; finally the while condition res == 0
decides whether another iteration runs.  The first component is some exit
value once the loop has returned, or none if it is still running when the
oracle list ends; the second is the trace of emitted events. -/
def loopGo : List LoopIter → Option Int × List IOEvent
  | [] => (none, [])
  | it :: rest =>
    let p := loopGo rest
    match it.sel with
    | SelectOutcome.fail true _ => (some 0, [IOEvent.selectWait])
    | SelectOutcome.fail false e =>
      if it.interrupt then (some e, [IOEvent.selectWait])
      else if e = 0 then (p.1, IOEvent.selectWait :: p.2)
      else (some e, [IOEvent.selectWait])
    | SelectOutcome.ready n =>
      if it.interrupt then (some (n : Int), [IOEvent.selectWait])
      else if n = 0 then (p.1, IOEvent.selectWait :: p.2)
      else (some (n : Int), [IOEvent.selectWait])

/-- infinite_loop from the source: calloc the transfer buffer (allocOk is
the oracle for its success), returning ENOMEM on failure, then run the
select loop. -/
def infinite_loop (allocOk : Bool) (iters : List LoopIter) : Option Int × List IOEvent :=
  if allocOk then loopGo iters else (some ENOMEM, [])

/-- All payloads written by a trace, keyed by destination descriptor. -/
def devWrites (tr : List IOEvent) : List (Int × List Nat) :=
  tr.filterMap fun e =>
    match e with
    | IOEvent.writeTo fd d => some (fd, d)
    | _ => none

/-- All payloads read by a trace, keyed by source descriptor. -/
def devReads (tr : List IOEvent) : List (Int × List Nat) :=
  tr.filterMap fun e =>
    match e with
    | IOEvent.readFrom fd d => some (fd, d)
    | _ => none

/-- The value infinite_loop returns when a readiness wait with the given
outcome is followed by an observed interrupt flag: 0 after an
EINTR-interrupted wait (the loop already broke with res reset to 0),
otherwise the wait's own result. -/
def selectExitCode : SelectOutcome → Int
  | SelectOutcome.ready n => (n : Int)
  | SelectOutcome.fail true _ => 0
  | SelectOutcome.fail false e => e

/-- Conversion of the long returned by strtol to the int variable
buffer_len, with the usual two's-complement wrap of mainstream
implementations (the conversion is implementation-defined in C). -/
def toInt32 (v : Int) : Int := (v + 2147483648) % 4294967296 - 2147483648

/-- The command-line options getopt_long can hand to the option loop, in
the order they are returned; unknown stands for the '?' result. -/
inductive Opt where
  | verbose
  | iface (s : List Char)
  | ethernet
  | flagsArg
  | permanent
  | user (s : List Char)
  | group (s : List Char)
  | buffer (s : List Char)
  | unknown
deriving DecidableEq

/-- The mutable locals of main that the option loop updates. -/
structure ArgState where
  res : Int
  verbosity : Nat
  ifrName : List Char
  ifrFlags : Nat
  persistent : Bool
  bufferLen : Int
  uid : Nat
  gid : Nat
deriving DecidableEq

/-- The locals of main before the option loop runs: res 0, an ifreq zeroed
then given ifr_flags = IFF_NO_PI, the default buffer length, and the
caller's effective uid/gid. -/
def initState (euid egid : Nat) : ArgState :=
  ⟨0, 0, [], IFF_NO_PI, false, 65536, euid, egid⟩

/-- One arm of the switch in main's option loop.  Note the two quirks the
source has: get_uid_by_name / get_gid_by_name store the id only on
success, and the 'b' arm breaks out of the switch only when the parsed
value is non-positive — a positive value falls through into the default
arm, which prints the usage text and sets res to 1. -/
def argStep (pw gr : List Char → Option Nat) (st : ArgState) : Opt → ArgState
  | Opt.verbose => { st with verbosity := st.verbosity + 1 }
  | Opt.iface s =>
    if s.length = 0 ∨ IFNAMSIZ ≤ s.length then { st with res := EINVAL }
    else { st with ifrName := s }
  | Opt.ethernet =>
    { st with ifrFlags := Nat.lor (Nat.land st.ifrFlags (65535 - IFF_TUN)) IFF_TAP }
  | Opt.flagsArg =>
    { st with ifrFlags := Nat.land st.ifrFlags (65535 - IFF_NO_PI) }
  | Opt.permanent => { st with persistent := true }
  | Opt.user s =>
    match get_uid_by_name s pw with
    | (r, some v) => { st with res := r, uid := v }
    | (r, none) => { st with res := r }
  | Opt.group s =>
    match get_gid_by_name s gr with
    | (r, some v) => { st with res := r, gid := v }
    | (r, none) => { st with res := r }
  | Opt.buffer s =>
    let v := toInt32 (strtol10 s).value
    if v ≤ 0 then { st with bufferLen := v, res := EINVAL }
    else { st with bufferLen := v, res := 1 }
  | Opt.unknown => { st with res := 1 }

/-- The do-while option loop of main: options are processed in order and
the loop stops as soon as res becomes non-zero. -/
def processArgs (pw gr : List Char → Option Nat) (st : ArgState) : List Opt → ArgState
  | [] => st
  | o :: rest =>
    let st2 := argStep pw gr st o
    if st2.res = 0 then processArgs pw gr st2 rest else st2

/-- Observable outcome of a run of main: the process exit status, whether
create_tun was called and whether it opened the device, the ifr_flags word
it handed to TUNSETIFF, the descriptor close_tun was invoked on at the
cleanup label (none when it was not invoked), and the final buffer_len. -/
structure MainResult where
  exitCode : Int
  createCalled : Bool
  opened : Bool
  requestFlags : Option Nat
  closeCalledOn : Option Int
  bufferLen : Int
deriving DecidableEq

/-- main from the source.  When option processing fails, the goto cleanup
at that point jumps over the declaration int tun_fd = 0, so the cleanup
test reads an indeterminate tun_fd; that indeterminate value is the
parameter g (C11 6.2.4p6: the object has no determinate value because its
initializer was never reached).  On the path through create_tun, tun_fd
is properly initialized to 0 and assigned only when create_tun succeeds;
cleanup invokes close_tun exactly when the final tun_fd is non-zero, and
the value close_tun returns is discarded. -/
def main (opts : List Opt) (g : Int) (o : TunOracle)
    (pw gr : List Char → Option Nat) (euid egid : Nat) : MainResult :=
  let st := processArgs pw gr (initState euid egid) opts
  if st.res ≠ 0 then
    { exitCode := st.res, createCalled := false, opened := false, requestFlags := none,
      closeCalledOn := if g ≠ 0 then some g else none, bufferLen := st.bufferLen }
  else
    let r := create_tun false (some st.ifrName) IFNAMSIZ st.persistent st.uid st.gid o
    if r.ret ≠ 0 then
      { exitCode := r.ret, createCalled := true, opened := r.opened,
        requestFlags := r.requestFlags, closeCalledOn := none, bufferLen := st.bufferLen }
    else
      { exitCode := 0, createCalled := true, opened := r.opened,
        requestFlags := r.requestFlags,
        closeCalledOn := if o.openRes ≠ 0 then some o.openRes else none,
        bufferLen := st.bufferLen }

/-- A pw or gr oracle for runs in which no symbolic name resolves. -/
def noLookup : List Char → Option Nat := fun _ => none

/-- A syscall oracle on which every call create_tun makes succeeds, the
device descriptor is 3, and the kernel confirms the name tun0. -/
def okOracle : TunOracle :=
  ⟨3, 0, 0, 0, ("tun0").data, 0, 0, 0, 0, 0, 0, 0, 0, 0, 0⟩

/-- A syscall oracle on which the open succeeds with descriptor 3 but the
TUNSETIFF request fails with errno EPERM. -/
def failSetiffOracle : TunOracle :=
  ⟨3, 0, -1, 1, [], 0, 0, 0, 0, 0, 0, 0, 0, 0, 0⟩

/-- Every trace the select loop can produce consists of readiness waits
only: no iteration reads or writes any payload. -/
theorem loopGo_no_transfer (l : List LoopIter) :
    devWrites (loopGo l).2 = [] ∧ devReads (loopGo l).2 = [] := by
  induction l with
  | nil => simp [loopGo, devWrites, devReads]
  | cons it rest ih =>
    rcases it with ⟨sel, intr⟩
    rcases sel with n | ⟨ei, e⟩
    · cases intr <;> by_cases hn : n = 0 <;>
        simp_all [loopGo, devWrites, devReads]
    · cases ei <;> cases intr <;> by_cases he : e = 0 <;>
        simp_all [loopGo, devWrites, devReads]

/-- C1: the claim says the forwarding loop forwards every byte sequence
from the input stream to the device and every device frame to the output
stream.  The code's loop performs no transfer at all: for every allocation
outcome and every sequence of readiness-wait outcomes, its event trace
contains no write and no read of any descriptor, so nothing supplied on
the input stream ever reaches the device's write side. -/
theorem C1_no_payload_forwarded (allocOk : Bool) (iters : List LoopIter) :
    devWrites (infinite_loop allocOk iters).2 = [] ∧
    devReads (infinite_loop allocOk iters).2 = [] := by
  cases allocOk
  · simp [infinite_loop, devWrites, devReads]
  · simpa [infinite_loop] using loopGo_no_transfer iters

/-- C2: the claim says the create-or-attach request carries the mode bits
the caller selected.  With Ethernet mode requested, main computes
ifr_flags = IFF_TAP | IFF_NO_PI, but create_tun overwrites its own ifreq
with the hard-coded IFF_TUN | IFF_NO_PI, so the TUNSETIFF request has the
TAP bit clear and differs from the caller's selection. -/
theorem C2_mode_bits_ignored :
    (processArgs noLookup noLookup (initState 0 0) [Opt.ethernet]).ifrFlags =
      Nat.lor IFF_TAP IFF_NO_PI ∧
    (Tuncat.main [Opt.ethernet] 0 okOracle noLookup noLookup 0 0).requestFlags =
      some (Nat.lor IFF_TUN IFF_NO_PI) ∧
    Nat.testBit (Nat.lor IFF_TUN IFF_NO_PI) 1 = false ∧
    Nat.testBit (Nat.lor IFF_TAP IFF_NO_PI) 1 = true ∧
    Nat.lor IFF_TUN IFF_NO_PI ≠ Nat.lor IFF_TAP IFF_NO_PI := by decide

/-- If the select loop is still running after the iterations seen so far,
then an iteration whose wait returns outcome r with the interrupt flag
observed set ends the loop in that very iteration (exactly one more
readiness wait appears in the trace), returning 0 after an
EINTR-interrupted wait and the wait's own result otherwise. -/
theorem loopGo_cancel_append (r : SelectOutcome) (l : List LoopIter)
    (h : (loopGo l).1 = none) :
    loopGo (l ++ [⟨r, true⟩]) =
      (some (selectExitCode r), (loopGo l).2 ++ [IOEvent.selectWait]) := by
  induction l with
  | nil =>
    rcases r with n | ⟨ei, e⟩
    · simp [loopGo, selectExitCode]
    · cases ei <;> simp [loopGo, selectExitCode]
  | cons it rest ih =>
    rcases it with ⟨sel, intr⟩
    rcases sel with n | ⟨ei, e⟩
    · cases intr <;> by_cases hn : n = 0 <;>
        simp_all [loopGo, List.cons_append]
    · cases ei <;> cases intr <;> by_cases he : e = 0 <;>
        simp_all [loopGo, List.cons_append]

/-- C3 counterexample: the claim says that once the cancellation token is
observed set the loop returns success (0) regardless of how many
descriptors the wait reported ready.  When the wait reports 3 descriptors
ready and the token is then observed set, the loop returns 3, not 0. -/
theorem C3_counterexample :
    infinite_loop true [⟨SelectOutcome.ready 3, true⟩] = (some 3, [IOEvent.selectWait]) ∧
    (3 : Int) ≠ 0 := by decide

/-- C3 (amended): when the cancellation token is observed set after a
readiness wait, the loop exits within that readiness-wait cycle; the
returned status is 0 when the wait itself was signal-interrupted, and
otherwise is the wait's own result — the count of descriptors reported
ready, or the wait's error code — so it is 0 only when that count was 0. -/
theorem C3_cancellation_exit (allocOk : Bool) (iters : List LoopIter) (r : SelectOutcome)
    (h : (infinite_loop allocOk iters).1 = none) :
    infinite_loop allocOk (iters ++ [⟨r, true⟩]) =
      (some (selectExitCode r), (infinite_loop allocOk iters).2 ++ [IOEvent.selectWait]) := by
  cases allocOk
  · simp [infinite_loop] at h
  · simpa [infinite_loop] using loopGo_cancel_append r iters (by simpa [infinite_loop] using h)

/-- C3 witness: from the empty (still running) state, a wait reporting 2
ready descriptors followed by the set token ends the loop at once with
status 2. -/
theorem C3_cancellation_exit_witness :
    (infinite_loop true []).1 = none ∧
    infinite_loop true [⟨SelectOutcome.ready 2, true⟩] = (some 2, [IOEvent.selectWait]) := by
  constructor
  · rfl
  · have h := C3_cancellation_exit true [] (SelectOutcome.ready 2) rfl
    rw [List.nil_append] at h
    rw [h]
    rfl

/-- C4 counterexample: the claim says an EINTR-interrupted wait with the
cancellation token unset makes the loop re-poll.  With the token unset,
an EINTR-interrupted wait ends the loop immediately with status 0: the
trace holds a single readiness wait, so the second oracle entry was never
consumed — no re-poll happened. -/
theorem C4_counterexample :
    infinite_loop true
        [⟨SelectOutcome.fail true EINTR, false⟩, ⟨SelectOutcome.ready 5, false⟩] =
      (some 0, [IOEvent.selectWait]) := by decide

/-- C4 (amended): a signal-interrupted readiness wait (EINTR) is treated
as non-fatal — no error status is reported — but the loop does not
re-poll: it resets its status to 0 and exits immediately, regardless of
the cancellation token and of any further readiness outcomes. -/
theorem C4_eintr_exits (e : Int) (b : Bool) (rest : List LoopIter) :
    infinite_loop true (⟨SelectOutcome.fail true e, b⟩ :: rest) =
      (some 0, [IOEvent.selectWait]) := rfl

/-- C5: in every execution of create_tun that opened the control device
and returned a non-zero status — name too long, rejected TUNSETIFF,
fcntl failure, persistence failure, ownership failure, or name read-back
failure — the descriptor was closed before returning. -/
theorem C5_failure_closes_descriptor (tunFdNull : Bool) (name : Option (List Char))
    (nameBufLen : Nat) (persistent : Bool) (uid gid : Nat) (o : TunOracle)
    (hopen : (create_tun tunFdNull name nameBufLen persistent uid gid o).opened = true)
    (hfail : (create_tun tunFdNull name nameBufLen persistent uid gid o).ret ≠ 0) :
    (create_tun tunFdNull name nameBufLen persistent uid gid o).closed = true := by
  revert hopen hfail
  unfold create_tun
  cases create_tun_step tunFdNull name nameBufLen persistent uid gid o <;>
    intro hopen hfail <;> simp_all

/-- C5 witness: with the open succeeding and TUNSETIFF failing with
errno EPERM, create_tun opened the device, failed, and closed it. -/
theorem C5_failure_closes_descriptor_witness :
    (create_tun false (some []) 16 false ID_NONE ID_NONE failSetiffOracle).opened = true ∧
    (create_tun false (some []) 16 false ID_NONE ID_NONE failSetiffOracle).ret ≠ 0 ∧
    (create_tun false (some []) 16 false ID_NONE ID_NONE failSetiffOracle).closed = true :=
  ⟨by decide, by decide,
    C5_failure_closes_descriptor false (some []) 16 false ID_NONE ID_NONE failSetiffOracle
      (by decide) (by decide)⟩

/-- C6: the claim says close_tun is never invoked when create_tun did not
succeed.  On an option-processing failure (buffer size 0), main jumps to
cleanup over the declaration int tun_fd = 0, so the cleanup test reads the
indeterminate tun_fd (modelled by the parameter g = 7): close_tun is
invoked on that indeterminate value although create_tun was never
called. -/
theorem C6_close_without_acquire :
    (Tuncat.main [Opt.buffer (("0").data)] 7 okOracle noLookup noLookup 0 0).createCalled
        = false ∧
    (Tuncat.main [Opt.buffer (("0").data)] 7 okOracle noLookup noLookup 0 0).closeCalledOn
        = some 7 ∧
    (Tuncat.main [Opt.buffer (("0").data)] 7 okOracle noLookup noLookup 0 0).exitCode
        = EINVAL := by decide

/-- C7: the claim says a positive buffer-size value overrides the default
and lets provisioning proceed.  A non-positive value does exit with the
distinct status EINVAL before any device is opened, but a positive value
(1000) falls through the missing break into the default arm: the process
exits with status 1 and create_tun is never called, even though the value
was parsed into buffer_len.  Without the option the default 65536 is
kept. -/
theorem C7_buffer_option_fallthrough :
    (Tuncat.main [Opt.buffer (("0").data)] 0 okOracle noLookup noLookup 0 0).exitCode
        = EINVAL ∧
    (Tuncat.main [Opt.buffer (("0").data)] 0 okOracle noLookup noLookup 0 0).createCalled
        = false ∧
    (Tuncat.main [Opt.buffer (("1000").data)] 0 okOracle noLookup noLookup 0 0).exitCode
        = 1 ∧
    (Tuncat.main [Opt.buffer (("1000").data)] 0 okOracle noLookup noLookup 0 0).createCalled
        = false ∧
    (Tuncat.main [Opt.buffer (("1000").data)] 0 okOracle noLookup noLookup 0 0).bufferLen
        = 1000 ∧
    (Tuncat.main [] 0 okOracle noLookup noLookup 0 0).bufferLen = 65536 := by decide

/-- A fully-decimal owner string whose value exceeds the long range. -/
def bigDecimalStr : List Char := ("99999999999999999999").data

/-- C8 counterexample: the claim says a fully-decimal value outside
[0, 2^32 - 1] yields ERANGE.  On a 20-digit decimal string the value
overflows strtol, errno is ERANGE after the call, so the condition
errno == 0 fails and the string is sent to the directory lookup instead:
with no matching account both functions return EINVAL, not ERANGE. -/
theorem C8_counterexample :
    bigDecimalStr.all Char.isDigit = true ∧
    bigDecimalStr ≠ [] ∧
    UINT_MAX_I < (digitsVal bigDecimalStr : Int) ∧
    get_uid_by_name bigDecimalStr noLookup = (EINVAL, none) ∧
    get_gid_by_name bigDecimalStr noLookup = (EINVAL, none) ∧
    EINVAL ≠ ERANGE := by decide

/-- C8 (amended): a string strtol fully consumes without overflow —
optional leading whitespace and sign, then digits, the empty string
consumed vacuously — is accepted with the exact id stored when its value
lies in [0, 2^32 - 1] and yields ERANGE without storing when outside;
every other string, including decimal strings overflowing the long range,
is resolved via the system identity directory, where a failed lookup
yields EINVAL (distinct from ERANGE and from success) and a successful
lookup stores the resolved id. -/
theorem C8_owner_resolution (name : List Char) (pw gr : List Char → Option Nat) :
    ((strtol10 name).consumedAll = true → (strtol10 name).erange = false →
      0 ≤ (strtol10 name).value → (strtol10 name).value ≤ UINT_MAX_I →
      get_uid_by_name name pw = (0, some (strtol10 name).value.toNat) ∧
      get_gid_by_name name gr = (0, some (strtol10 name).value.toNat)) ∧
    ((strtol10 name).consumedAll = true → (strtol10 name).erange = false →
      ((strtol10 name).value < 0 ∨ UINT_MAX_I < (strtol10 name).value) →
      get_uid_by_name name pw = (ERANGE, none) ∧
      get_gid_by_name name gr = (ERANGE, none)) ∧
    (((strtol10 name).consumedAll = false ∨ (strtol10 name).erange = true) →
      (pw name = none → get_uid_by_name name pw = (EINVAL, none)) ∧
      (∀ u, pw name = some u → get_uid_by_name name pw = (0, some u)) ∧
      (gr name = none → get_gid_by_name name gr = (EINVAL, none)) ∧
      (∀ g, gr name = some g → get_gid_by_name name gr = (0, some g))) ∧
    ERANGE ≠ EINVAL ∧ ERANGE ≠ 0 ∧ EINVAL ≠ 0 := by
  refine ⟨?_, ?_, ?_, by decide, by decide, by decide⟩
  · intro h1 h2 h3 h4
    constructor <;>
      simp [get_uid_by_name, get_gid_by_name, h1, h2, not_lt.mpr h3, not_lt.mpr h4]
  · intro h1 h2 h3
    constructor <;>
    · simp only [get_uid_by_name, get_gid_by_name, h1, h2, Bool.not_false, Bool.and_self,
        if_true]
      rw [if_pos h3]
  · intro h
    have hc : ((strtol10 name).consumedAll && !(strtol10 name).erange) = false := by
      rcases h with h | h <;> simp [h]
    refine ⟨?_, ?_, ?_, ?_⟩
    · intro hp
      simp [get_uid_by_name, hc, hp]
    · intro u hp
      simp [get_uid_by_name, hc, hp]
    · intro hp
      simp [get_gid_by_name, hc, hp]
    · intro g hp
      simp [get_gid_by_name, hc, hp]

/-- C8 witness: the in-range decimal string 1000 is accepted by both
functions with the exact id 1000 stored. -/
theorem C8_owner_resolution_witness :
    get_uid_by_name (("1000").data) noLookup = (0, some 1000) ∧
    get_gid_by_name (("1000").data) noLookup = (0, some 1000) := by
  have h := (C8_owner_resolution (("1000").data) noLookup noLookup).1
    (by decide) (by decide) (by decide) (by decide)
  refine ⟨?_, ?_⟩
  · rw [h.1]
    decide
  · rw [h.2]
    decide

/-- C9: close_tun on a descriptor value that never came from a successful
acquisition (fd at most 0) returns EINVAL, a non-zero error, for every
outcome of the underlying close call. -/
theorem C9_close_invalid_fd (fd closeRes closeErrno : Int) (h : fd ≤ 0) :
    close_tun fd closeRes closeErrno = EINVAL ∧ EINVAL ≠ 0 := by
  constructor
  · simp [close_tun, h]
  · decide

/-- C9 witness: close_tun on descriptor 0 returns EINVAL. -/
theorem C9_close_invalid_fd_witness :
    close_tun 0 0 0 = EINVAL ∧ EINVAL ≠ 0 :=
  C9_close_invalid_fd 0 0 0 (by decide)

/-- C10: create_tun called with a NULL out-pointer returns EINVAL at once:
the control device is not opened, no configuration request is issued, no
descriptor is stored, and the caller's name buffer is untouched. -/
theorem C10_null_out_param (name : Option (List Char)) (nameBufLen : Nat)
    (persistent : Bool) (uid gid : Nat) (o : TunOracle) :
    create_tun true name nameBufLen persistent uid gid o =
      ⟨EINVAL, false, false, none, false, false, false, false, none, name⟩ := rfl

end Tuncat
